import Mathlib

/-!
Verification of the two HTTP queue servers of this repository:
`src/simple-queue-server.py` (interactive enqueue/poll server) and
`src/test-queue-server.py` (file-seeded server with one-shot / cycling modes).

The servers are embedded shallowly: each HTTP handler becomes a pure function
from the request data and the queue state to the new queue state and an
abstract response.  Paths, header values and payloads are `List Char`
(Python `str` restricted to the operations the code uses); the thread-safe
`queue.Queue[str]` becomes a `List (List Char)` whose head is the front
(`get_nowait` takes the head, `put` appends at the tail).  Python string
methods used by the code (`rstrip("/")`, `split(sep)[0]`, `strip()`,
`lower()`, substring containment, `urllib.parse.parse_qs`) are re-defined
below, faithful to CPython for the ASCII inputs the servers deal in.
-/

namespace QueueServer

/-- Whitespace predicate of Python `str.strip()`, restricted to ASCII:
space, tab, newline, carriage return, vertical tab and form feed. -/
def pyIsSpace (c : Char) : Bool :=
  c = ' ' || c = '\t' || c = '\n' || c = '\x0d' || c = '\x0b' || c = '\x0c'

/-- Python `s.strip()` (ASCII whitespace): drop leading and trailing whitespace. -/
def pyStrip (s : List Char) : List Char :=
  ((s.dropWhile pyIsSpace).reverse.dropWhile pyIsSpace).reverse

/-- Python `s.lower()` restricted to ASCII letters. -/
def pyLower (s : List Char) : List Char :=
  s.map Char.toLower

/-- Python `s.rstrip("/")`: remove all trailing `/` characters. -/
def pyRstripSlash : List Char → List Char
  | [] => []
  | c :: rest =>
      let r := pyRstripSlash rest
      if r = [] ∧ c = '/' then [] else c :: r

/-- Python `s.rstrip("/") or "/"`: the normalization both servers apply to the
configured endpoint, and `simple-queue-server.py` applies to request paths. -/
def pyNormSlash (s : List Char) : List Char :=
  let r := pyRstripSlash s
  if r = [] then ['/'] else r

/-- Python `s.split(sep)[0]` for a one-character separator: the part of the
string before the first occurrence of `sep` (the whole string if absent). -/
def pySplitFirst (sep : Char) : List Char → List Char
  | [] => []
  | c :: rest => if c = sep then [] else c :: pySplitFirst sep rest

/-- Python `s.split(sep)` for a one-character separator. -/
def pySplitAll (sep : Char) : List Char → List (List Char)
  | [] => [[]]
  | c :: rest =>
      if c = sep then [] :: pySplitAll sep rest
      else match pySplitAll sep rest with
        | [] => [[c]]
        | seg :: segs => (c :: seg) :: segs

/-- Value of a hexadecimal digit, `none` on a non-hex character. -/
def hexDigitVal (c : Char) : Option Nat :=
  if '0' ≤ c ∧ c ≤ '9' then some (c.toNat - '0'.toNat)
  else if 'a' ≤ c ∧ c ≤ 'f' then some (c.toNat - 'a'.toNat + 10)
  else if 'A' ≤ c ∧ c ≤ 'F' then some (c.toNat - 'A'.toNat + 10)
  else none

/-- Modelled from the Python standard library (external collaborator):
`urllib.parse.unquote_plus`.  `+` becomes a space and `%XX` with two hex
digits becomes the character with that code; an invalid percent escape is
kept literally.  Faithful to CPython for single-byte (ASCII) escapes. -/
def unquotePlus : List Char → List Char
  | [] => []
  | '+' :: rest => ' ' :: unquotePlus rest
  | '%' :: a :: b :: rest =>
      match hexDigitVal a, hexDigitVal b with
      | some x, some y => Char.ofNat (16 * x + y) :: unquotePlus rest
      | _, _ => '%' :: unquotePlus (a :: b :: rest)
  | c :: rest => c :: unquotePlus rest

/-- Modelled from the Python standard library (external collaborator):
`urllib.parse.parse_qsl` with default arguments.  Fields are separated by
`&`; a field with no `=` or with an empty value is skipped
(`keep_blank_values=False`); names and values are plus/percent-decoded. -/
def parseQsl (body : List Char) : List (List Char × List Char) :=
  (pySplitAll '&' body).filterMap fun field =>
    let name := pySplitFirst '=' field
    if name = field then none
    else
      let value := (field.drop (name.length + 1))
      if value = [] then none
      else some (unquotePlus name, unquotePlus value)

/-- The expression `parse_qs(raw_body).get("payload", [])` followed by
`payloads[0] if payloads else ""` in `_handle_enqueue`: the first decoded
value submitted under the field name `payload`, or the empty string. -/
def parseQsPayload (body : List Char) : List Char :=
  match (parseQsl body).filter (fun p => p.1 = ("payload".data)) with
  | [] => []
  | p :: _ => p.2

/-- Substring containment, as Python `needle in haystack`. -/
def leadsWith : List Char → List Char → Bool
  | [], _ => true
  | _ :: _, [] => false
  | a :: as, b :: bs => a = b && leadsWith as bs

/-- Python `needle in haystack` for strings: some suffix of the haystack
starts with the needle. -/
def containsSub (needle : List Char) : List Char → Bool
  | [] => leadsWith needle []
  | c :: rest => leadsWith needle (c :: rest) || containsSub needle rest

/-- An inbound HTTP request, reduced to the data the two servers consult:
the raw path, the `User-Agent` header, the `Content-Type` header and the
decoded body text. -/
structure Request where
  path : List Char
  userAgent : List Char
  contentType : List Char
  body : List Char
  deriving DecidableEq

/-- Abstract response emitted by a handler, one constructor per observable
response shape the two servers produce. -/
inductive HResponse
  /-- 200 `text/plain` with the given body. -/
  | payload (body : List Char)
  /-- 204 No Content, no body: the empty-signal. -/
  | noContent
  /-- 200 with the static HTML page. -/
  | html
  /-- 200 `application/json` body `{"size": n}`. -/
  | status (size : Nat)
  /-- 201 Created, no body. -/
  | created
  /-- 400 via `send_error` ("Empty payload"). -/
  | badRequest
  /-- 404 via `send_error` ("Not Found"). -/
  | notFound
  /-- 405 via `send_error` ("Method not allowed"). -/
  | methodNotAllowed
  deriving DecidableEq

/-- The queue: front of the list is the head `get_nowait` removes; `put`
appends at the tail. -/
abbrev Queue := List (List Char)

/-! ## simple-queue-server.py (interactive server) -/

/-- The handler `_Handler._handle_next` of `simple-queue-server.py`: a poll
whose `User-Agent` contains `HeadlessChrome` gets 204 and no queue mutation;
otherwise `get_nowait` either fails (204) or yields the head payload,
returned as a 200 body with no re-enqueue. -/
def sq_handleNext (ua : List Char) (q : Queue) : Queue × HResponse :=
  if containsSub ("HeadlessChrome".data) ua then (q, .noContent)
  else
    match q with
    | [] => (q, .noContent)
    | p :: rest => (rest, .payload p)

/-- The handler `_Handler._handle_status` of `simple-queue-server.py`:
report `qsize()` as JSON, no mutation. -/
def sq_handleStatus (q : Queue) : Queue × HResponse :=
  (q, .status q.length)

/-- The payload extraction of `_Handler._handle_enqueue`: if the media type
(the `Content-Type` up to the first `;`, stripped) is form-encoded, the first
`payload` field of the parsed body, else the raw body. -/
def sq_extractPayload (contentType body : List Char) : List Char :=
  let ct := pyStrip (pySplitFirst ';' contentType)
  if ct = ("application/x-www-form-urlencoded".data) ∨ ct = ("multipart/form-data".data)
  then parseQsPayload body
  else body

/-- The handler `_Handler._handle_enqueue` of `simple-queue-server.py`:
extract the payload, strip surrounding whitespace, reject an empty result
with 400 and no mutation, otherwise `put` it at the tail and answer 201. -/
def sq_handleEnqueue (contentType body : List Char) (q : Queue) : Queue × HResponse :=
  let payload := pyStrip (sq_extractPayload contentType body)
  if payload = [] then (q, .badRequest)
  else (q ++ [payload], .created)

/-- Path normalization of `simple-queue-server.py`:
`self.path.split("?", 1)[0].rstrip("/") or "/"`. -/
def sqNorm (path : List Char) : List Char :=
  pyNormSlash (pySplitFirst '?' path)

/-- Dispatch of `_Handler.do_GET` in `simple-queue-server.py`.  `ep` is the
endpoint captured by `_build_handler`, already normalized there. -/
def sq_doGET (ep : List Char) (r : Request) (q : Queue) : Queue × HResponse :=
  let np := sqNorm r.path
  if np = ep then sq_handleNext r.userAgent q
  else if np = ("/status".data) then sq_handleStatus q
  else if np = ("/".data) then (q, .html)
  else (q, .notFound)

/-- Dispatch of `_Handler.do_POST` in `simple-queue-server.py`: `/enqueue`
first, then the poll endpoint, otherwise 405. -/
def sq_doPOST (ep : List Char) (r : Request) (q : Queue) : Queue × HResponse :=
  let np := sqNorm r.path
  if np = ("/enqueue".data) then sq_handleEnqueue r.contentType r.body q
  else if np = ep then sq_handleNext r.userAgent q
  else (q, .methodNotAllowed)

/-- Dispatch of `_Handler.do_OPTIONS` in `simple-queue-server.py`: always
204, no mutation, any path. -/
def sq_doOPTIONS (_r : Request) (q : Queue) : Queue × HResponse :=
  (q, .noContent)

/-! ## test-queue-server.py (file-seeded server) -/

/-- The poll core of `_Handler.do_GET` in `test-queue-server.py` (after the
route check): `get_nowait`; on an empty queue answer 204 when `auto_exit` is
off, else serve the exit command as a 200 payload; on success serve the
payload and, when `auto_exit` is off (cycling mode), `put` it back at the
tail. -/
def tq_poll (autoExit : Bool) (ec : List Char) (q : Queue) : Queue × HResponse :=
  match q with
  | [] => if ¬ autoExit then (q, .noContent) else (q, .payload ec)
  | p :: rest => if ¬ autoExit then (rest ++ [p], .payload p) else (rest, .payload p)

/-- Dispatch of `_Handler.do_GET` in `test-queue-server.py`: a path whose
`rstrip("/")` differs from the endpoint gets 404; otherwise the poll core
runs.  The request's `User-Agent` is never consulted by this server. -/
def tq_doGET (autoExit : Bool) (ec ep : List Char) (r : Request) (q : Queue) :
    Queue × HResponse :=
  if pyRstripSlash r.path ≠ ep then (q, .notFound)
  else tq_poll autoExit ec q

/-- Dispatch of `_Handler.do_POST` in `test-queue-server.py`: when the path
matches the endpoint and `auto_exit` is off, a body that strips and lowers to
the lowered exit command is answered with the exit command as a 200 payload;
every other POST gets 405.  The queue is never touched. -/
def tq_doPOST (autoExit : Bool) (ec ep : List Char) (r : Request) (q : Queue) :
    Queue × HResponse :=
  if pyRstripSlash r.path = ep ∧ autoExit = false then
    if pyLower (pyStrip r.body) = pyLower ec then (q, .payload ec)
    else (q, .methodNotAllowed)
  else (q, .methodNotAllowed)

/-- Dispatch of `_Handler.do_OPTIONS` in `test-queue-server.py`: always 204,
no mutation. -/
def tq_doOPTIONS (_r : Request) (q : Queue) : Queue × HResponse :=
  (q, .noContent)

/-- Iterated polls against the file-seeded server: run `n` consecutive polls
(each one the poll core of `do_GET`), collecting the responses in order. -/
def tq_runPolls (autoExit : Bool) (ec : List Char) : Nat → Queue → Queue × List HResponse
  | 0, q => (q, [])
  | n + 1, q =>
      let s := tq_poll autoExit ec q
      let t := tq_runPolls autoExit ec n s.1
      (t.1, s.2 :: t.2)

/-! ## Event trace of one poll of test-queue-server.py

The order of queue operations and response emission inside one invocation of
`do_GET` matters for the cycling mode: the source sends the response with
`self._send_payload(payload)` first and only then executes `items.put(payload)`.
The trace below lists the operations in exactly the source order. -/

/-- One observable step inside a poll handler invocation: a `get_nowait`
that succeeded, the emission of the response, or a `put`. -/
inductive QEvent
  | dequeued (p : List Char)
  | responded (r : HResponse)
  | enqueued (p : List Char)
  deriving DecidableEq

/-- Effect of one event on the queue state (a `responded` event does not
touch the queue). -/
def applyEvent (q : Queue) : QEvent → Queue
  | .dequeued _ => q.drop 1
  | .responded _ => q
  | .enqueued p => q ++ [p]

/-- Queue state at the moment each event happens: the state just before the
event, listed in trace order. -/
def statesAlong (q : Queue) : List QEvent → List Queue
  | [] => []
  | e :: es => q :: statesAlong (applyEvent q e) es

/-- Queue state after a whole trace has run. -/
def stateAfter (q : Queue) (tr : List QEvent) : Queue :=
  tr.foldl applyEvent q

/-- The events of one poll of `test-queue-server.py`, in the order the
source performs them: on success, `get_nowait` first, then
`_send_payload`, then (cycling mode only) `put`. -/
def tq_pollTrace (autoExit : Bool) (ec : List Char) (q : Queue) : List QEvent :=
  match q with
  | [] =>
      if ¬ autoExit then [.responded .noContent]
      else [.responded (.payload ec)]
  | p :: _ =>
      .dequeued p :: .responded (.payload p) ::
        (if ¬ autoExit then [.enqueued p] else [])

/-- Whether a trace performs some `put` strictly before its first response
emission. -/
def enqueuedBeforeResponded (tr : List QEvent) : Bool :=
  (tr.takeWhile fun e => match e with | .responded _ => false | _ => true).any
    fun e => match e with | .enqueued _ => true | _ => false

/-- Queue state at the moment the first response of the trace is emitted
(`none` when the trace emits no response). -/
def stateAtFirstResponse (q : Queue) : List QEvent → Option Queue
  | [] => none
  | .responded _ :: _ => some q
  | e :: es => stateAtFirstResponse (applyEvent q e) es

/-! ## Interleaved request sequences against simple-queue-server.py -/

/-- One inbound request against the interactive server, reduced to the three
handlers: an enqueue POST (with its `Content-Type` and body), a poll GET
(with its `User-Agent`), or a status GET. -/
inductive SqOp
  | enq (contentType body : List Char)
  | poll (ua : List Char)
  | stat
  deriving DecidableEq

/-- Apply one request to the interactive server's queue. -/
def sq_applyOp (q : Queue) : SqOp → Queue × HResponse
  | .enq ct body => sq_handleEnqueue ct body q
  | .poll ua => sq_handleNext ua q
  | .stat => sq_handleStatus q

/-- Run a sequence of requests against the interactive server, collecting
the responses in order. -/
def sq_runOps (q : Queue) : List SqOp → Queue × List HResponse
  | [] => (q, [])
  | op :: ops =>
      let s := sq_applyOp q op
      let t := sq_runOps s.1 ops
      (t.1, s.2 :: t.2)

/-- Whether a response is the 201 of an accepted enqueue. -/
def isCreated : HResponse → Bool
  | .created => true
  | _ => false

/-- Whether a response is a 200 payload delivery (a successful poll). -/
def isPayloadResp : HResponse → Bool
  | .payload _ => true
  | _ => false

/-! ## Supporting lemmas -/

/-- Polling an empty queue with `auto_exit` on always serves the exit
command and leaves the queue empty: `k` such polls give `k` exit payloads. -/
theorem tq_runPolls_exit_empty (ec : List Char) (k : Nat) :
    tq_runPolls true ec k [] = ([], List.replicate k (HResponse.payload ec)) := by
  induction k with
  | zero => rfl
  | succ n ih => simp [tq_runPolls, tq_poll, ih, List.replicate_succ]

/-- One-shot polls drain the seeded queue front to back, one payload per
poll, with no re-enqueue; `k` extra polls each serve the exit command. -/
theorem tq_runPolls_exit_drain (ec : List Char) (es : Queue) (k : Nat) :
    tq_runPolls true ec (es.length + k) es =
      ([], es.map HResponse.payload ++ List.replicate k (HResponse.payload ec)) := by
  induction es generalizing k with
  | nil => simpa using tq_runPolls_exit_empty ec k
  | cons e es ih =>
      have harith : (e :: es).length + k = (es.length + k) + 1 := by
        simp [List.length_cons]; omega
      rw [harith]
      simp [tq_runPolls, tq_poll, ih k]

/-- Splitting a run of `m + n` polls into a run of `m` and a run of `n`. -/
theorem tq_runPolls_add (autoExit : Bool) (ec : List Char) (m n : Nat) (q : Queue) :
    tq_runPolls autoExit ec (m + n) q =
      ((tq_runPolls autoExit ec n (tq_runPolls autoExit ec m q).1).1,
       (tq_runPolls autoExit ec m q).2 ++
         (tq_runPolls autoExit ec n (tq_runPolls autoExit ec m q).1).2) := by
  induction m generalizing q with
  | zero => simp [tq_runPolls]
  | succ m ih =>
      have harith : (m + 1) + n = (m + n) + 1 := by omega
      rw [harith]
      simp [tq_runPolls, ih]

/-- Cycling polls rotate the queue: after `k ≤ n` polls the queue is the
`k`-rotation of the original, and the responses are the first `k` items. -/
theorem tq_runPolls_rotate (ec : List Char) :
    ∀ (k : Nat) (q : Queue), k ≤ q.length →
      tq_runPolls false ec k q =
        (q.drop k ++ q.take k, (q.take k).map HResponse.payload) := by
  intro k
  induction k with
  | zero => intro q h; simp [tq_runPolls]
  | succ n ih =>
      intro q h
      match q with
      | [] => exact absurd h (by simp)
      | a :: q' =>
          have hn : n ≤ q'.length := by
            simpa using Nat.le_of_succ_le_succ h
          have hn2 : n ≤ (q' ++ [a]).length := by
            simp; omega
          have hrot := ih (q' ++ [a]) hn2
          have hpoll : tq_poll false ec (a :: q') = (q' ++ [a], HResponse.payload a) := by
            simp [tq_poll]
          simp only [tq_runPolls, hpoll, hrot]
          rw [List.drop_append_of_le_length hn, List.take_append_of_le_length hn]
          simp [List.drop_succ_cons, List.take_succ_cons, List.append_assoc]

/-- One cycling poll never changes the queue size. -/
theorem tq_poll_cycling_length (ec : List Char) (q : Queue) :
    (tq_poll false ec q).1.length = q.length := by
  match q with
  | [] => rfl
  | a :: q' => simp [tq_poll]

/-- Any number of cycling polls leaves the queue size unchanged. -/
theorem tq_runPolls_cycling_length (ec : List Char) (j : Nat) (q : Queue) :
    (tq_runPolls false ec j q).1.length = q.length := by
  induction j generalizing q with
  | zero => rfl
  | succ n ih =>
      simp only [tq_runPolls]
      rw [ih]
      exact tq_poll_cycling_length ec q

/-- Size accounting of the interactive server: along any request sequence,
final queue size plus delivered payloads equals initial size plus accepted
enqueues. -/
theorem sq_runOps_size (ops : List SqOp) :
    ∀ q0 : Queue,
      (sq_runOps q0 ops).1.length + ((sq_runOps q0 ops).2.countP isPayloadResp) =
        q0.length + ((sq_runOps q0 ops).2.countP isCreated) := by
  induction ops with
  | nil => intro q0; simp [sq_runOps]
  | cons op ops ih =>
      intro q0
      match op with
      | .enq ct body =>
          by_cases h : pyStrip (sq_extractPayload ct body) = []
          · simp [sq_runOps, sq_applyOp, sq_handleEnqueue, h, List.countP_cons,
              isPayloadResp, isCreated, ih q0]
          · have := ih (q0 ++ [pyStrip (sq_extractPayload ct body)])
            simp [sq_runOps, sq_applyOp, sq_handleEnqueue, h, List.countP_cons,
              isPayloadResp, isCreated] at this ⊢
            omega
      | .poll ua =>
          by_cases hprobe : containsSub ("HeadlessChrome".data) ua = true
          · simp [sq_runOps, sq_applyOp, sq_handleNext, hprobe, List.countP_cons,
              isPayloadResp, isCreated, ih q0]
          · match q0 with
            | [] =>
                simp [sq_runOps, sq_applyOp, sq_handleNext, hprobe, List.countP_cons,
                  isPayloadResp, isCreated, ih ([] : Queue)]
            | p :: rest =>
                have := ih rest
                simp [sq_runOps, sq_applyOp, sq_handleNext, hprobe, List.countP_cons,
                  isPayloadResp, isCreated] at this ⊢
                omega
      | .stat =>
          simp [sq_runOps, sq_applyOp, sq_handleStatus, List.countP_cons,
            isPayloadResp, isCreated, ih q0]

/-- Splitting at the first separator recovers a separator-free first part. -/
theorem pySplitFirst_append (sep : Char) (a b : List Char) (h : sep ∉ a) :
    pySplitFirst sep (a ++ sep :: b) = a := by
  induction a with
  | nil => simp [pySplitFirst]
  | cons c a ih =>
      have hc : c ≠ sep := fun hc => h (by simp [hc])
      have ha : sep ∉ a := fun ha => h (List.mem_cons_of_mem c ha)
      simp [pySplitFirst, hc, ih ha]

/-- Unfolding of `pyRstripSlash` on a cons cell. -/
theorem pyRstripSlash_cons (c : Char) (l : List Char) :
    pyRstripSlash (c :: l) =
      if pyRstripSlash l = [] ∧ c = '/' then [] else c :: pyRstripSlash l := rfl

/-- Stripping trailing slashes distributes over an append whose right part
does not strip away entirely. -/
theorem pyRstripSlash_append (a b : List Char) (h : pyRstripSlash b ≠ []) :
    pyRstripSlash (a ++ b) = a ++ pyRstripSlash b := by
  induction a with
  | nil => simp
  | cons c a ih =>
      have hne : pyRstripSlash (a ++ b) ≠ [] := by
        rw [ih]
        simp [h]
      rw [List.cons_append, pyRstripSlash_cons, if_neg (fun hc => hne hc.1), ih,
        List.cons_append]

/-- A string beginning with `?` keeps that `?` under `rstrip("/")`. -/
theorem pyRstripSlash_query (qs : List Char) :
    pyRstripSlash ('?' :: qs) = '?' :: pyRstripSlash qs := by
  simp [pyRstripSlash]

/-! ## Claims -/

/-- C1: in ONE_SHOT mode (file-seeded server started with `--exit`), a queue
seeded with payloads `E1..En` answers the first `n` polls with `E1..En` in
that exact order, each exactly once and with no re-enqueue (the queue ends
empty); every one of the `k` further polls serves the configured exit
command as a 200 payload-shaped response while the queue stays empty. -/
theorem oneShot_drain_then_exit (es : Queue) (ec : List Char) (k : Nat) :
    tq_runPolls true ec es.length es = ([], es.map HResponse.payload) ∧
    tq_runPolls true ec (es.length + k) es =
      ([], es.map HResponse.payload ++ List.replicate k (HResponse.payload ec)) := by
  constructor
  · have := tq_runPolls_exit_drain ec es 0
    simpa using this
  · exact tq_runPolls_exit_drain ec es k

/-- C2 counterexample: the claim asserts probe polls receive the
empty-signal with no queue mutation in both producer modes, but the
file-seeded server never consults the `User-Agent`: a request whose
`User-Agent` is exactly the probe signature `HeadlessChrome`, against a
non-empty one-shot queue, is served the payload (a 200, not a 204) and the
queue shrinks from one item to none. -/
theorem probe_fileSeeded_serves_counterexample :
    containsSub ("HeadlessChrome".data) ("HeadlessChrome".data) = true ∧
    tq_doGET true ("exit".data) ("/next".data)
      { path := "/next".data, userAgent := "HeadlessChrome".data,
        contentType := [], body := [] }
      ["a".data] = ([], HResponse.payload ("a".data)) := by
  constructor
  · decide
  · decide

/-- C2 amended: in the interactive server (`simple-queue-server.py`), every
poll whose `User-Agent` contains the probe signature `HeadlessChrome` is
answered with the empty-signal (204, no body) and the queue is not mutated,
even when non-empty; the file-seeded server performs no probe detection. -/
theorem probe_interactive_empty_signal (ua : List Char) (q : Queue)
    (h : containsSub ("HeadlessChrome".data) ua = true) :
    sq_handleNext ua q = (q, HResponse.noContent) := by
  simp [sq_handleNext, h]

/-- Witness for C2 amended: a concrete probe `User-Agent` against a
non-empty queue. -/
theorem probe_interactive_empty_signal_witness :
    containsSub ("HeadlessChrome".data) ("Mozilla/5.0 HeadlessChrome/119".data) = true ∧
    sq_handleNext ("Mozilla/5.0 HeadlessChrome/119".data) ["a".data] =
      (["a".data], HResponse.noContent) :=
  ⟨by decide, probe_interactive_empty_signal _ _ (by decide)⟩

/-- C3: in CYCLING mode (file-seeded server without `--exit`), a non-empty
queue of length `n` answers `n` consecutive polls with every queued item
exactly once, in FIFO order, and the queue returns to its original value (a
full rotation, each dequeue re-enqueueing the same payload at the tail);
poll `n + 1` returns the same item as poll 1. -/
theorem cycling_rotation_law (p : List Char) (rest : Queue) (ec : List Char) :
    tq_runPolls false ec (p :: rest).length (p :: rest) =
      (p :: rest, (p :: rest).map HResponse.payload) ∧
    (tq_runPolls false ec ((p :: rest).length + 1) (p :: rest)).2 =
      (p :: rest).map HResponse.payload ++ [HResponse.payload p] := by
  have hfull := tq_runPolls_rotate ec (p :: rest).length (p :: rest) (le_refl _)
  have hcycle : tq_runPolls false ec (p :: rest).length (p :: rest) =
      (p :: rest, (p :: rest).map HResponse.payload) := by
    simpa using hfull
  refine ⟨hcycle, ?_⟩
  rw [tq_runPolls_add false ec (p :: rest).length 1 (p :: rest), hcycle]
  simp [tq_runPolls, tq_poll]

/-- C4 counterexample: the claim asserts the cycling re-enqueue happens
before the response is sent, so the payload is never absent from the queue
while the response is emitted; in the source the re-enqueue follows
`_send_payload`.  For the seeded queue `["x"]` the poll trace performs no
`put` before its response, and the queue at the moment the response is
emitted is empty — the payload `"x"` is absent from it. -/
theorem reenqueue_after_response_counterexample :
    enqueuedBeforeResponded (tq_pollTrace false ("exit".data) ["x".data]) = false ∧
    stateAtFirstResponse ["x".data] (tq_pollTrace false ("exit".data) ["x".data]) =
      some [] := by
  constructor
  · decide
  · decide

/-- C4 amended: in CYCLING mode every successful dequeue is followed by a
re-enqueue of the same payload at the tail within the same handler
invocation, but only after the response has been sent: the trace is
dequeue, respond, re-enqueue, the queue during the response is the remainder
without the served payload, and the final queue is the rotation
`rest ++ [p]`. -/
theorem cycling_reenqueue_order (p : List Char) (rest : Queue) (ec : List Char) :
    tq_pollTrace false ec (p :: rest) =
      [QEvent.dequeued p, QEvent.responded (HResponse.payload p), QEvent.enqueued p] ∧
    stateAtFirstResponse (p :: rest) (tq_pollTrace false ec (p :: rest)) = some rest ∧
    stateAfter (p :: rest) (tq_pollTrace false ec (p :: rest)) = rest ++ [p] := by
  refine ⟨rfl, rfl, rfl⟩

/-- C5: every enqueue request has its payload (the raw body, or the first
form-encoded `payload` field when the media type is form-encoded) trimmed of
surrounding whitespace; an empty trimmed result is rejected with 400 and the
queue is untouched, otherwise the trimmed payload is appended at the tail,
201 with no body is reported, and the size grows by exactly one. -/
theorem enqueue_trim_reject_append (ct body : List Char) (q : Queue) :
    (pyStrip (sq_extractPayload ct body) = [] ∧
     sq_handleEnqueue ct body q = (q, HResponse.badRequest)) ∨
    (pyStrip (sq_extractPayload ct body) ≠ [] ∧
     sq_handleEnqueue ct body q =
       (q ++ [pyStrip (sq_extractPayload ct body)], HResponse.created) ∧
     (sq_handleEnqueue ct body q).1.length = q.length + 1) := by
  by_cases h : pyStrip (sq_extractPayload ct body) = []
  · exact Or.inl ⟨h, by simp [sq_handleEnqueue, h]⟩
  · exact Or.inr ⟨h, by simp [sq_handleEnqueue, h], by simp [sq_handleEnqueue, h]⟩

/-- C6: after any interleaving of requests against the interactive server
started empty, the status endpoint reports a size equal to
`max(k - j, 0)` where `k` counts the accepted enqueues (201 responses) and
`j` the successful polls (200 payload responses); and in cycling mode any
number of polls against any queue leaves the size unchanged (rotation is
size-neutral). -/
theorem status_size_law (ops : List SqOp) (j : Nat) (ec : List Char) (q : Queue) :
    (sq_handleStatus (sq_runOps [] ops).1).2 =
      HResponse.status (sq_runOps [] ops).1.length ∧
    ((sq_runOps [] ops).1.length : ℤ) =
      max (((sq_runOps [] ops).2.countP isCreated : ℤ) -
           ((sq_runOps [] ops).2.countP isPayloadResp : ℤ)) 0 ∧
    (tq_runPolls false ec j q).1.length = q.length := by
  refine ⟨rfl, ?_, tq_runPolls_cycling_length ec j q⟩
  have h := sq_runOps_size ops []
  have hz : (((sq_runOps [] ops).2.countP isCreated : ℤ) -
      ((sq_runOps [] ops).2.countP isPayloadResp : ℤ)) =
      ((sq_runOps [] ops).1.length : ℤ) := by
    simp only [List.length_nil, Nat.zero_add] at h
    omega
  rw [hz]
  exact (max_eq_left (Int.natCast_nonneg _)).symm

/-- C7: in CYCLING mode a poll against an empty queue is answered with the
empty-signal (204, no body) — never the exit payload, never an error — and
the queue stays empty. -/
theorem cycling_empty_poll_empty_signal (ec ep : List Char) (r : Request)
    (hpath : pyRstripSlash r.path = ep) :
    tq_doGET false ec ep r [] = ([], HResponse.noContent) := by
  simp [tq_doGET, hpath, tq_poll]

/-- Witness for C7: the default endpoint polled at its exact path. -/
theorem cycling_empty_poll_empty_signal_witness :
    pyRstripSlash ("/next".data) = ("/next".data) ∧
    tq_doGET false ("exit".data) ("/next".data)
      { path := "/next".data, userAgent := [], contentType := [], body := [] } [] =
      ([], HResponse.noContent) :=
  ⟨by decide, cycling_empty_poll_empty_signal _ _ _ (by decide)⟩

/-- C8 counterexample: the claim asserts every request to an unrecognized
path is reported not-found, for any method; but a POST to `/bogus` is
answered 405 Method Not Allowed by both servers, not 404. -/
theorem unknown_route_post_counterexample :
    sq_doPOST ("/next".data)
      { path := "/bogus".data, userAgent := [], contentType := [], body := [] }
      ["a".data] = (["a".data], HResponse.methodNotAllowed) ∧
    tq_doPOST false ("exit".data) ("/next".data)
      { path := "/bogus".data, userAgent := [], contentType := [], body := [] }
      ["a".data] = (["a".data], HResponse.methodNotAllowed) ∧
    HResponse.methodNotAllowed ≠ HResponse.notFound := by
  refine ⟨by decide, by decide, by decide⟩

/-- C8 amended: a request to a path outside the recognized routes never
changes the queue, in either server; a GET is answered not-found (404),
while a POST is answered method-not-allowed (405) and an OPTIONS
no-content (204). -/
theorem unknown_route_behavior (ep : List Char) (r : Request) (q : Queue)
    (autoExit : Bool) (ec : List Char)
    (h1 : sqNorm r.path ≠ ep) (h2 : sqNorm r.path ≠ ("/status".data))
    (h3 : sqNorm r.path ≠ ("/".data)) (h4 : sqNorm r.path ≠ ("/enqueue".data))
    (h5 : pyRstripSlash r.path ≠ ep) :
    sq_doGET ep r q = (q, HResponse.notFound) ∧
    sq_doPOST ep r q = (q, HResponse.methodNotAllowed) ∧
    sq_doOPTIONS r q = (q, HResponse.noContent) ∧
    tq_doGET autoExit ec ep r q = (q, HResponse.notFound) ∧
    tq_doPOST autoExit ec ep r q = (q, HResponse.methodNotAllowed) ∧
    tq_doOPTIONS r q = (q, HResponse.noContent) := by
  refine ⟨?_, ?_, rfl, ?_, ?_, rfl⟩
  · simp [sq_doGET, h1, h2, h3]
  · simp [sq_doPOST, h1, h4]
  · simp [tq_doGET, h5]
  · simp only [tq_doPOST]
    rw [if_neg (fun hc => h5 hc.1)]

/-- Witness for C8 amended: the path `/bogus` against the default
endpoint. -/
theorem unknown_route_behavior_witness :
    (sqNorm ("/bogus".data) ≠ ("/next".data) ∧
     sqNorm ("/bogus".data) ≠ ("/status".data) ∧
     sqNorm ("/bogus".data) ≠ ("/".data) ∧
     sqNorm ("/bogus".data) ≠ ("/enqueue".data) ∧
     pyRstripSlash ("/bogus".data) ≠ ("/next".data)) ∧
    (sq_doGET ("/next".data)
       { path := "/bogus".data, userAgent := [], contentType := [], body := [] }
       ["a".data] = (["a".data], HResponse.notFound) ∧
     sq_doPOST ("/next".data)
       { path := "/bogus".data, userAgent := [], contentType := [], body := [] }
       ["a".data] = (["a".data], HResponse.methodNotAllowed) ∧
     sq_doOPTIONS
       { path := "/bogus".data, userAgent := [], contentType := [], body := [] }
       ["a".data] = (["a".data], HResponse.noContent) ∧
     tq_doGET false ("exit".data) ("/next".data)
       { path := "/bogus".data, userAgent := [], contentType := [], body := [] }
       ["a".data] = (["a".data], HResponse.notFound) ∧
     tq_doPOST false ("exit".data) ("/next".data)
       { path := "/bogus".data, userAgent := [], contentType := [], body := [] }
       ["a".data] = (["a".data], HResponse.methodNotAllowed) ∧
     tq_doOPTIONS
       { path := "/bogus".data, userAgent := [], contentType := [], body := [] }
       ["a".data] = (["a".data], HResponse.noContent)) :=
  ⟨⟨by decide, by decide, by decide, by decide, by decide⟩,
   unknown_route_behavior ("/next".data)
     { path := "/bogus".data, userAgent := [], contentType := [], body := [] }
     ["a".data] false ("exit".data)
     (by decide) (by decide) (by decide) (by decide) (by decide)⟩

/-- C9: a POST to the file-seeded server never changes the queue; it is
answered with the exit command as a 200 payload exactly when the path
matches the poll endpoint, auto-exit is disabled, and the body stripped of
whitespace compares case-insensitively equal to the configured exit
command; every other POST is answered 405 Method Not Allowed. -/
theorem post_exit_command_behavior (autoExit : Bool) (ec ep : List Char)
    (r : Request) (q : Queue) :
    (tq_doPOST autoExit ec ep r q).1 = q ∧
    ((tq_doPOST autoExit ec ep r q).2 = HResponse.payload ec ↔
      (pyRstripSlash r.path = ep ∧ autoExit = false ∧
        pyLower (pyStrip r.body) = pyLower ec)) ∧
    ((tq_doPOST autoExit ec ep r q).2 = HResponse.payload ec ∨
      (tq_doPOST autoExit ec ep r q).2 = HResponse.methodNotAllowed) := by
  unfold tq_doPOST
  by_cases h1 : pyRstripSlash r.path = ep ∧ autoExit = false
  · by_cases h2 : pyLower (pyStrip r.body) = pyLower ec
    · rw [if_pos h1, if_pos h2]
      exact ⟨rfl, ⟨fun h => ⟨h1.1, h1.2, h2⟩, fun h => rfl⟩, Or.inl rfl⟩
    · rw [if_pos h1, if_neg h2]
      exact ⟨rfl, ⟨fun hc => absurd hc (by simp), fun hc => absurd hc.2.2 h2⟩,
        Or.inr rfl⟩
  · rw [if_neg h1]
    exact ⟨rfl, ⟨fun hc => absurd hc (by simp), fun hc => absurd ⟨hc.1, hc.2.1⟩ h1⟩,
      Or.inr rfl⟩

/-- C10: the two servers disagree on a poll path carrying a query string.
For a normalized endpoint containing no `?`, a GET whose path is the
endpoint followed by `?` and any query text is routed by the interactive
server to the poll handler (the query is stripped before matching), while
the file-seeded server compares the raw path, answers not-found, and leaves
the queue unchanged. -/
theorem query_string_divergence (ep qs ua ct bd : List Char) (q : Queue)
    (autoExit : Bool) (ec : List Char)
    (hep : pyNormSlash ep = ep) (hq : '?' ∉ ep) :
    sq_doGET ep
      { path := ep ++ '?' :: qs, userAgent := ua, contentType := ct, body := bd } q =
      sq_handleNext ua q ∧
    tq_doGET autoExit ec ep
      { path := ep ++ '?' :: qs, userAgent := ua, contentType := ct, body := bd } q =
      (q, HResponse.notFound) := by
  have hsplit : pySplitFirst '?' (ep ++ '?' :: qs) = ep :=
    pySplitFirst_append '?' ep qs hq
  have hnorm : sqNorm (ep ++ '?' :: qs) = ep := by
    rw [sqNorm, hsplit, hep]
  have hr : pyRstripSlash (ep ++ '?' :: qs) = ep ++ '?' :: pyRstripSlash qs := by
    rw [pyRstripSlash_append _ _ (by rw [pyRstripSlash_query]; simp),
      pyRstripSlash_query]
  have hne : pyRstripSlash (ep ++ '?' :: qs) ≠ ep := by
    rw [hr]
    intro hcontra
    have hlen := congrArg List.length hcontra
    simp at hlen
  constructor
  · simp [sq_doGET, hnorm]
  · simp [tq_doGET, hne]

/-- Witness for C10: the default endpoint `/next` polled as `/next?x=1`
against a one-item queue: the interactive server dequeues and serves the
item, the file-seeded server answers not-found and keeps the item. -/
theorem query_string_divergence_witness :
    pyNormSlash ("/next".data) = ("/next".data) ∧
    ('?' ∉ ("/next".data)) ∧
    sq_doGET ("/next".data)
      { path := ("/next".data) ++ '?' :: ("x=1".data), userAgent := [],
        contentType := [], body := [] } ["a".data] =
      sq_handleNext [] ["a".data] ∧
    sq_handleNext ([] : List Char) ["a".data] = ([], HResponse.payload ("a".data)) ∧
    tq_doGET false ("exit".data) ("/next".data)
      { path := ("/next".data) ++ '?' :: ("x=1".data), userAgent := [],
        contentType := [], body := [] } ["a".data] =
      (["a".data], HResponse.notFound) := by
  have h := query_string_divergence ("/next".data) ("x=1".data) [] [] []
    ["a".data] false ("exit".data) (by decide) (by decide)
  exact ⟨by decide, by decide, h.1, by decide, h.2⟩

end QueueServer
